import Mathlib

set_option maxRecDepth 100000

/-!
Shallow embedding of the Conversation Orchestration & Analysis Engine of
`src/backend/server.py` (FastAPI server for audio feedback collection).

Python values flowing through the server (parsed JSON, request forms,
persisted snapshots) are modelled by `JValue`; Python dicts are association
lists with Python's insert/update semantics; the file-system blob store is
an association list keyed by filename.  Machine floats do not occur in any
verified claim; JSON numbers are modelled as exact rationals.
-/

/-- A Python/JSON value as produced by `json.loads` and passed around the
server.  `nanV`/`infV` model the non-finite floats Python's `json.loads`
accepts (`NaN`, `Infinity`, `-Infinity`). -/
inductive JValue where
  | null : JValue
  | bool (b : Bool) : JValue
  | num (q : ℚ) : JValue
  | str (s : String) : JValue
  | arr (elems : List JValue) : JValue
  | obj (entries : List (String × JValue)) : JValue
  | nanV : JValue
  | infV (neg : Bool) : JValue

/-- A Python dict with string keys, in insertion order (as all dicts built
by the server are). -/
abbrev PyObj := List (String × JValue)

/-- `d[k]` lookup on a Python dict: first (unique) matching key. -/
def dictGet : PyObj → String → Option JValue
  | [], _ => none
  | (k', v') :: rest, k => if k' = k then some v' else dictGet rest k

/-- `d[k] = v` assignment on a Python dict: update in place if the key is
present, else append at the end (insertion-order semantics). -/
def dictInsert : PyObj → String → JValue → PyObj
  | [], k, v => [(k, v)]
  | (k', v') :: rest, k, v =>
      if k' = k then (k', v) :: rest else (k', v') :: dictInsert rest k v

/-- `d.setdefault(k, v)`: insert only when the key is absent. -/
def dictSetdefault (d : PyObj) (k : String) (v : JValue) : PyObj :=
  if (dictGet d k).isSome then d else dictInsert d k v

/-- `d.get(k, default)`. -/
def pyGetD (d : PyObj) (k : String) (v : JValue) : JValue :=
  (dictGet d k).getD v

/-- Python truthiness of a value (`bool(x)`). -/
def pyTruthy : JValue → Bool
  | .null => false
  | .bool b => b
  | .num q => if q = 0 then false else true
  | .str s => s ≠ ""
  | .arr l => !l.isEmpty
  | .obj m => !m.isEmpty
  | .nanV => true
  | .infV _ => true

/-- Truthiness of an `Optional[str]` parameter (`None` and `""` are falsy). -/
def optStrTruthy : Option String → Bool
  | none => false
  | some s => s ≠ ""

/-- An `Optional[str]` as a JSON value (`None` becomes `null`). -/
def optStr : Option String → JValue
  | none => JValue.null
  | some s => JValue.str s

/-! ## Structured-Response Extractor (`extract_json_from_text`, server.py 186-218) -/

/-- The backquote character (written via its code point). -/
def backtick : Char := Char.ofNat 96

/-- The single-quote character. -/
def squote : Char := Char.ofNat 39

/-- Opening curly brace. -/
def obrace : Char := Char.ofNat 123

/-- Closing curly brace. -/
def cbrace : Char := Char.ofNat 125

/-- Python regex `\s` (ASCII whitespace classes). -/
def isPyWS (c : Char) : Bool :=
  c = ' ' || c = '\t' || c = '\n' || c = '\r' || c = Char.ofNat 11 || c = Char.ofNat 12

/-- Skip a maximal run of `\s*`. -/
def dropPyWS (l : List Char) : List Char := l.dropWhile isPyWS

/-- Code fence marker. -/
def fenceMark : List Char := [backtick, backtick, backtick]

/-- The optional `json` tag of a fenced block. -/
def jsonTag : List Char := ['j', 's', 'o', 'n']

/-- Lazy body search for the capture group of
`(?:json)?\s*(\x7b.*?\x7d)\s*` followed by a closing fence, with
`re.DOTALL`: given the characters after the opening brace, find the
shortest prefix whose next character is a closing brace followed by
`\s*` and a closing fence. -/
def splitAtClose : List Char → Option (List Char)
  | [] => none
  | c :: rest =>
      if c = cbrace && List.isPrefixOf fenceMark (dropPyWS rest) then some []
      else (splitAtClose rest).map (fun tl => c :: tl)

/-- Try to match the fenced-block regex anchored at the start of `s`,
returning the captured `\x7b...\x7d` group.  The `(?:json)?` alternative
is exclusive here: when `json` is present the bare branch cannot match
(the `j` is not whitespace or a brace), so no backtracking is needed. -/
def tryFenceAt (s : List Char) : Option (List Char) :=
  if List.isPrefixOf fenceMark s then
    let afterFence := s.drop 3
    let afterTag :=
      if List.isPrefixOf jsonTag afterFence then afterFence.drop 4 else afterFence
    match dropPyWS afterTag with
    | c :: rest =>
        if c = obrace then
          (splitAtClose rest).map (fun content => obrace :: (content ++ [cbrace]))
        else none
    | [] => none
  else none

/-- `re.search` of the fenced-block pattern (server.py 195): leftmost
start position wins. -/
def searchFence : List Char → Option (List Char)
  | [] => none
  | c :: rest => (tryFenceAt (c :: rest)).orElse (fun _ => searchFence rest)

/-- Keep everything up to and including the last closing brace. -/
def takeToLastClose (l : List Char) : Option (List Char) :=
  let r := l.reverse.dropWhile (fun c => c ≠ cbrace)
  if r.isEmpty then none else some r.reverse

/-- `re.search(r'\x7b.*\x7d', text, re.DOTALL)` (server.py 205): greedy,
from the first opening brace to the last closing brace after it. -/
def braceSpan (s : List Char) : Option (List Char) :=
  match s.dropWhile (fun c => c ≠ obrace) with
  | [] => none
  | c :: rest => takeToLastClose (c :: rest)

/-- `candidate.replace("'", mark)` with a double quote (server.py 212). -/
def replaceQuotes (l : List Char) : List Char :=
  l.map (fun c => if c = squote then '"' else c)

/-! ### Strict JSON parsing (`json.loads`)

`json.loads` is the Python standard library's strict JSON parser; it is
modelled here directly: objects, arrays, strings with escapes (raw
control characters rejected), numbers, `true`/`false`/`null`, and the
non-finite literals `NaN`/`Infinity`/`-Infinity` Python accepts by
default.  Numbers are exact rationals; `\uXXXX` escapes decode to the
code point without surrogate pairing (no verified claim involves
surrogates). -/

/-- JSON inter-token whitespace. -/
def isJsonWS (c : Char) : Bool := c = ' ' || c = '\t' || c = '\n' || c = '\r'

/-- Skip JSON whitespace. -/
def skipJWS (l : List Char) : List Char := l.dropWhile isJsonWS

/-- ASCII digit test. -/
def isDigitCh (c : Char) : Bool := '0' ≤ c && c ≤ '9'

/-- Digit value. -/
def digitVal (c : Char) : Nat := c.toNat - 48

/-- Hex digit value. -/
def hexVal (c : Char) : Option Nat :=
  if isDigitCh c then some (digitVal c)
  else if 'a' ≤ c && c ≤ 'f' then some (c.toNat - 87)
  else if 'A' ≤ c && c ≤ 'F' then some (c.toNat - 55)
  else none

/-- Numeric value of a digit run. -/
def natOfDigits (l : List Char) : Nat := l.foldl (fun a c => a * 10 + digitVal c) 0

/-- Parse a JSON string body (after the opening quote), returning the
content and the remainder after the closing quote.  Strict mode: raw
control characters below 0x20 are rejected. -/
def pStrBody : List Char → Option (List Char × List Char)
  | [] => none
  | c :: rest =>
      if c = '"' then some ([], rest)
      else if c = '\\' then
        match rest with
        | '"' :: t => (pStrBody t).map (fun p => ('"' :: p.1, p.2))
        | '\\' :: t => (pStrBody t).map (fun p => ('\\' :: p.1, p.2))
        | '/' :: t => (pStrBody t).map (fun p => ('/' :: p.1, p.2))
        | 'b' :: t => (pStrBody t).map (fun p => (Char.ofNat 8 :: p.1, p.2))
        | 'f' :: t => (pStrBody t).map (fun p => (Char.ofNat 12 :: p.1, p.2))
        | 'n' :: t => (pStrBody t).map (fun p => ('\n' :: p.1, p.2))
        | 'r' :: t => (pStrBody t).map (fun p => ('\r' :: p.1, p.2))
        | 't' :: t => (pStrBody t).map (fun p => ('\t' :: p.1, p.2))
        | 'u' :: h1 :: h2 :: h3 :: h4 :: t =>
            match hexVal h1, hexVal h2, hexVal h3, hexVal h4 with
            | some a, some b, some c2, some d =>
                (pStrBody t).map
                  (fun p => (Char.ofNat (((a * 16 + b) * 16 + c2) * 16 + d) :: p.1, p.2))
            | _, _, _, _ => none
        | _ => none
      else if c.toNat < 32 then none
      else (pStrBody rest).map (fun p => (c :: p.1, p.2))

/-- Parse a JSON number token (maximal match of the number regex),
returning its exact rational value and the remainder. -/
def pNumber (s : List Char) : Option (ℚ × List Char) :=
  let signed : Bool × List Char := match s with
    | '-' :: t => (true, t)
    | _ => (false, s)
  let neg := signed.1
  let s1 := signed.2
  match s1 with
  | [] => none
  | c :: _ =>
      if ¬ isDigitCh c then none
      else
        let dsAll := s1.takeWhile isDigitCh
        -- leading zero: the int part is `0` alone (0|[1-9]\d*)
        let ds := if dsAll.head? = some '0' then ['0'] else dsAll
        let s2 := s1.drop ds.length
        let ip : ℚ := (natOfDigits ds : ℚ)
        let fracStep : ℚ × List Char :=
          match s2 with
          | '.' :: s3 =>
              let fs := s3.takeWhile isDigitCh
              if fs.isEmpty then (ip, s2)
              else (ip + (natOfDigits fs : ℚ) / ((10 : ℚ) ^ fs.length), s3.drop fs.length)
          | _ => (ip, s2)
        let q1 := fracStep.1
        let s4 := fracStep.2
        let expStep : ℚ × List Char :=
          match s4 with
          | e :: s5 =>
              if e = 'e' || e = 'E' then
                let esigned : Bool × List Char := match s5 with
                  | '-' :: t => (true, t)
                  | '+' :: t => (false, t)
                  | _ => (false, s5)
                let es := esigned.2.takeWhile isDigitCh
                if es.isEmpty then (q1, s4)
                else
                  let ev := natOfDigits es
                  let q2 := if esigned.1 then q1 / ((10 : ℚ) ^ ev) else q1 * ((10 : ℚ) ^ ev)
                  (q2, esigned.2.drop es.length)
              else (q1, s4)
          | [] => (q1, s4)
        some (if neg then -expStep.1 else expStep.1, expStep.2)

mutual

/-- Parse one JSON value (fuel-indexed recursion; the fuel passed by
`jsonLoads` always suffices since each nesting level consumes input). -/
def pVal : Nat → List Char → Option (JValue × List Char)
  | 0, _ => none
  | Nat.succ fuel, s =>
      match skipJWS s with
      | [] => none
      | c :: rest =>
          if c = obrace then
            match skipJWS rest with
            | d :: rest2 =>
                if d = cbrace then some (JValue.obj [], rest2)
                else (pMembers fuel (d :: rest2) []).map (fun p => (JValue.obj p.1, p.2))
            | [] => none
          else if c = '[' then
            match skipJWS rest with
            | d :: rest2 =>
                if d = ']' then some (JValue.arr [], rest2)
                else (pElems fuel (d :: rest2) []).map (fun p => (JValue.arr p.1, p.2))
            | [] => none
          else if c = '"' then
            (pStrBody rest).map (fun p => (JValue.str (String.mk p.1), p.2))
          else if c = 't' then
            if List.isPrefixOf ['r', 'u', 'e'] rest then some (JValue.bool true, rest.drop 3)
            else none
          else if c = 'f' then
            if List.isPrefixOf ['a', 'l', 's', 'e'] rest then some (JValue.bool false, rest.drop 4)
            else none
          else if c = 'n' then
            if List.isPrefixOf ['u', 'l', 'l'] rest then some (JValue.null, rest.drop 3)
            else none
          else if c = 'N' then
            if List.isPrefixOf ['a', 'N'] rest then some (JValue.nanV, rest.drop 2)
            else none
          else if c = 'I' then
            if List.isPrefixOf ['n', 'f', 'i', 'n', 'i', 't', 'y'] rest then
              some (JValue.infV false, rest.drop 7)
            else none
          else if c = '-' && List.isPrefixOf ['I', 'n', 'f', 'i', 'n', 'i', 't', 'y'] rest then
            some (JValue.infV true, rest.drop 8)
          else
            (pNumber (c :: rest)).map (fun p => (JValue.num p.1, p.2))

/-- Parse object members, positioned at the first character of a key
(must be a double quote); duplicate keys overwrite as in Python dicts. -/
def pMembers : Nat → List Char → PyObj → Option (PyObj × List Char)
  | 0, _, _ => none
  | Nat.succ fuel, s, acc =>
      match s with
      | [] => none
      | c :: rest =>
          if c = '"' then
            match pStrBody rest with
            | some (key, r1) =>
                match skipJWS r1 with
                | ':' :: r2 =>
                    match pVal fuel r2 with
                    | some (v, r3) =>
                        let acc2 := dictInsert acc (String.mk key) v
                        match skipJWS r3 with
                        | ',' :: r4 => pMembers fuel (skipJWS r4) acc2
                        | d :: r4 => if d = cbrace then some (acc2, r4) else none
                        | [] => none
                    | none => none
                | _ => none
            | none => none
          else none

/-- Parse array elements (positioned at the first element). -/
def pElems : Nat → List Char → List JValue → Option (List JValue × List Char)
  | 0, _, _ => none
  | Nat.succ fuel, s, acc =>
      match pVal fuel s with
      | some (v, r1) =>
          match skipJWS r1 with
          | ',' :: r2 => pElems fuel r2 (acc ++ [v])
          | c :: r2 => if c = ']' then some (acc ++ [v], r2) else none
          | [] => none
      | none => none

end

/-- `json.loads`: parse one value and reject trailing data. -/
def jsonLoads (s : List Char) : Option JValue :=
  match pVal (2 * s.length + 8) s with
  | some (v, rest) => if (skipJWS rest).isEmpty then some v else none
  | none => none

/-- Strategies 2 and 3 of `extract_json_from_text` (server.py 204-218):
greedy brace span, then single-quote repair. -/
def extractBrace (text : List Char) : Except String JValue :=
  match braceSpan text with
  | some cand =>
      match jsonLoads cand with
      | some v => Except.ok v
      | none =>
          match jsonLoads (replaceQuotes cand) with
          | some v => Except.ok v
          | none => Except.error "No valid JSON found in model output"
  | none => Except.error "No valid JSON found in model output"

/-- `extract_json_from_text` (server.py 186-218): fenced block first,
then brace span, then quote repair, else `ValueError`. -/
def extract_json_from_text (text : List Char) : Except String JValue :=
  if text.isEmpty then Except.error "Empty model response"
  else
    match searchFence text with
    | some cand =>
        match jsonLoads cand with
        | some v => Except.ok v
        | none => extractBrace text
    | none => extractBrace text

/-! ## Conversation Record Store (`save_conversation_file`, server.py 221-227)

The `conversations/` directory is modelled as an association list from
filename to payload; `open(path, "w")` + `json.dump` is an insert that
silently replaces an existing entry with the same filename.  The
timestamp key `datetime.utcnow().strftime("%Y%m%d_%H%M%S")` is passed in
as a string: it has one-second resolution, so two saves within the same
second receive the identical key. -/

abbrev Store := List (String × JValue)

/-- `save_conversation_file` (server.py 221-227): derive the filename
from the second-resolution timestamp and write (possibly overwriting). -/
def save_conversation_file (ts : String) (payload : JValue) (store : Store) :
    String × Store :=
  let filename := "conversation_" ++ ts ++ ".json"
  (filename, dictInsert store filename payload)

/-! ## Date parsing (`parse_iso_datetime`, server.py 254-276)

`datetime.fromisoformat` is modelled per its pre-3.11 grammar (which the
code targets — it rewrites a trailing `Z` into `+00:00` because
`fromisoformat` does not accept `Z`):
`YYYY-MM-DD[*HH[:MM[:SS[.fff[fff]]]][+HH:MM[:SS]]]` with any single
character as the date/time separator, plus the `strptime("%Y-%m-%d")`
fallback that also accepts unpadded month/day.  Fractional seconds in a
UTC offset are not modelled (no claim involves them). -/

/-- Gregorian leap year. -/
def isLeap (y : Nat) : Bool := (y % 4 = 0 && y % 100 ≠ 0) || y % 400 = 0

/-- Length of a month. -/
def daysInMonth (y m : Nat) : Nat :=
  if m = 2 then (if isLeap y then 29 else 28)
  else if m = 4 || m = 6 || m = 9 || m = 11 then 30
  else 31

/-- Days in the months strictly before month `m`. -/
def cumDays (y m : Nat) : Nat :=
  (List.range (m - 1)).foldl (fun a i => a + daysInMonth y (i + 1)) 0

/-- Proleptic Gregorian day number of a date (day 0 = 0001-01-01). -/
def dayNumber (y m d : Nat) : Nat :=
  365 * (y - 1) + (y - 1) / 4 - (y - 1) / 100 + (y - 1) / 400 + cumDays y m + (d - 1)

/-- A parsed (possibly timezone-aware) datetime.  `tzSec` is the UTC
offset in seconds; `none` is a naive datetime. -/
structure DT where
  year : Nat
  month : Nat
  day : Nat
  hour : Nat
  minute : Nat
  second : Nat
  usec : Nat
  tzSec : Option Int
  deriving DecidableEq

/-- Absolute time in microseconds (naive datetimes count as UTC, exactly
what `dt.replace(tzinfo=timezone.utc)` at server.py 273-274 does). -/
def dtAbs (d : DT) : Int :=
  ((dayNumber d.year d.month d.day : Int) * 86400 + (d.hour : Int) * 3600
      + (d.minute : Int) * 60 + (d.second : Int) - d.tzSec.getD 0) * 1000000 + (d.usec : Int)

/-- Exactly two digits. -/
def digits2 : List Char → Option (Nat × List Char)
  | a :: b :: rest =>
      if isDigitCh a && isDigitCh b then some (digitVal a * 10 + digitVal b, rest) else none
  | _ => none

/-- Exactly four digits. -/
def digits4 : List Char → Option (Nat × List Char)
  | a :: b :: c :: d :: rest =>
      if isDigitCh a && isDigitCh b && isDigitCh c && isDigitCh d then
        some (((digitVal a * 10 + digitVal b) * 10 + digitVal c) * 10 + digitVal d, rest)
      else none
  | _ => none

/-- `datetime` constructor range validation. -/
def validDate (y m d : Nat) : Bool :=
  1 ≤ y && y ≤ 9999 && 1 ≤ m && m ≤ 12 && 1 ≤ d && d ≤ daysInMonth y m

/-- Fractional seconds: exactly 3 or 6 digits after the dot. -/
def parseFrac (l : List Char) : Option (Nat × List Char) :=
  let ds := l.takeWhile isDigitCh
  if ds.length = 3 then some (natOfDigits ds * 1000, l.drop 3)
  else if ds.length = 6 then some (natOfDigits ds, l.drop 6)
  else none

/-- UTC offset `(+|-)HH:MM[:SS]`; the `timezone` constructor requires the
magnitude to be strictly below 24 hours. -/
def parseTZ (l : List Char) : Option (Int × List Char) :=
  match l with
  | c :: rest =>
      if c = '+' || c = '-' then
        match digits2 rest with
        | some (hh, r1) =>
            match r1 with
            | ':' :: r2 =>
                match digits2 r2 with
                | some (mm, r3) =>
                    let step : Nat × List Char :=
                      match r3 with
                      | ':' :: r4 =>
                          match digits2 r4 with
                          | some (ss, r5) => (ss, r5)
                          | none => (0, r3)
                      | _ => (0, r3)
                    let total : Int := (hh : Int) * 3600 + (mm : Int) * 60 + (step.1 : Int)
                    if total < 86400 then
                      some (if c = '-' then -total else total, step.2)
                    else none
                | none => none
            | _ => none
        | none => none
      else none
  | [] => none

/-- Time-of-day part `HH[:MM[:SS[.fff[fff]]]]` with optional offset;
must consume the whole remainder. -/
def parseTimePart (l : List Char) : Option (Nat × Nat × Nat × Nat × Option Int) :=
  match digits2 l with
  | none => none
  | some (h, r1) =>
      let msu : Nat × Nat × Nat × List Char :=
        match r1 with
        | ':' :: r2 =>
            match digits2 r2 with
            | none => (0, 0, 0, r1)
            | some (mi, r3) =>
                match r3 with
                | ':' :: r4 =>
                    match digits2 r4 with
                    | none => (mi, 0, 0, r3)
                    | some (s, r5) =>
                        match r5 with
                        | '.' :: r6 =>
                            match parseFrac r6 with
                            | some (us, r7) => (mi, s, us, r7)
                            | none => (mi, s, 0, r5)
                        | _ => (mi, s, 0, r5)
                | _ => (mi, 0, 0, r3)
        | _ => (0, 0, 0, r1)
      let mi := msu.1
      let s := msu.2.1
      let us := msu.2.2.1
      let r := msu.2.2.2
      match r with
      | [] =>
          if h ≤ 23 && mi ≤ 59 && s ≤ 59 then some (h, mi, s, us, none) else none
      | _ =>
          match parseTZ r with
          | some (off, []) =>
              if h ≤ 23 && mi ≤ 59 && s ≤ 59 then some (h, mi, s, us, some off) else none
          | _ => none

/-- `datetime.fromisoformat` (pre-3.11 grammar). -/
def fromIsoFormat (cs : List Char) : Option DT :=
  match digits4 cs with
  | none => none
  | some (y, r1) =>
      match r1 with
      | '-' :: r2 =>
          match digits2 r2 with
          | none => none
          | some (m, r3) =>
              match r3 with
              | '-' :: r4 =>
                  match digits2 r4 with
                  | none => none
                  | some (d, r5) =>
                      if ¬ validDate y m d then none
                      else
                        match r5 with
                        | [] => some ⟨y, m, d, 0, 0, 0, 0, none⟩
                        | _sep :: r6 =>
                            match parseTimePart r6 with
                            | some (h, mi, s, us, tz) => some ⟨y, m, d, h, mi, s, us, tz⟩
                            | none => none
              | _ => none
      | _ => none

/-- The 1-or-2-digit alternatives of `strptime`'s `%m`/`%d` patterns,
two-digit alternative first (regex alternation order). -/
def cand12 : List Char → List (Nat × List Char)
  | a :: b :: rest =>
      (if isDigitCh a && isDigitCh b then [(digitVal a * 10 + digitVal b, rest)] else [])
        ++ (if isDigitCh a then [(digitVal a, b :: rest)] else [])
  | [a] => if isDigitCh a then [(digitVal a, [])] else []
  | [] => []

/-- `datetime.strptime(value, "%Y-%m-%d")`: 4-digit year, 1-2 digit month
and day (with backtracking), full match required, ranges validated by the
`datetime` constructor. -/
def strpYmd (cs : List Char) : Option DT :=
  match digits4 cs with
  | none => none
  | some (y, r1) =>
      match r1 with
      | '-' :: r2 =>
          (cand12 r2).findSome? (fun md =>
            if 1 ≤ md.1 && md.1 ≤ 12 then
              match md.2 with
              | '-' :: r3 =>
                  (cand12 r3).findSome? (fun dd =>
                    if 1 ≤ dd.1 && dd.1 ≤ 31 && dd.2.isEmpty && validDate y md.1 dd.1 then
                      some ⟨y, md.1, dd.1, 0, 0, 0, 0, none⟩
                    else none)
              | _ => none
            else none)
      | _ => none

/-- The string-level body of `parse_iso_datetime` (server.py 262-271):
rewrite a trailing `Z` to `+00:00`, try `fromisoformat`, then the
`strptime` fallback on the same rewritten value. -/
def parseIsoStr (s : String) : Option DT :=
  let cs := s.toList
  let cs2 :=
    if cs.getLast? = some 'Z' then cs.dropLast ++ ['+', '0', '0', ':', '0', '0'] else cs
  match fromIsoFormat cs2 with
  | some d => some d
  | none => strpYmd cs2

/-- `parse_iso_datetime` (server.py 254-276) as called on arbitrary
values: falsy input returns `None`; a truthy non-string raises
(`.endswith` on a non-string); a truthy string parses or raises
`ValueError`. -/
def parse_iso_datetime (v : JValue) : Except String (Option DT) :=
  if pyTruthy v = false then Except.ok none
  else
    match v with
    | .str s =>
        match parseIsoStr s with
        | some d => Except.ok (some d)
        | none =>
            Except.error "Invalid date format. Use ISO format YYYY-MM-DD or YYYY-MM-DDTHH:MM:SSZ"
    | _ => Except.error "AttributeError: endswith"

/-! ## Date filtering (`filter_records_by_date`, server.py 279-304) -/

/-- The wall-clock components are all zero (the condition at
server.py 288 deciding the whole-day extension of the end bound). -/
def isMidnight (d : DT) : Bool :=
  d.hour = 0 && d.minute = 0 && d.second = 0 && d.usec = 0

/-- Survival of the two `continue` guards at server.py 298-301, on
absolute microseconds. -/
def inRange (sa ea : Option Int) (x : Int) : Bool :=
  (match sa with
   | none => true
   | some a => !(x < a))
    && (match ea with
        | none => true
        | some b => !(b < x))

/-- Resolve the `start`/`end` strings into absolute-microsecond bounds
(server.py 283-289), including the end-of-day extension
`+ timedelta(days=1) - timedelta(microseconds=1)` for a midnight end
bound. -/
def resolveBounds (startStr endStr : Option String) :
    Except String (Option Int × Option Int) :=
  let pOpt : Option String → Except String (Option DT) := fun o =>
    match o with
    | none => Except.ok none
    | some s => if s = "" then Except.ok none else parse_iso_datetime (JValue.str s)
  match pOpt startStr with
  | Except.error e => Except.error e
  | Except.ok sd =>
      match pOpt endStr with
      | Except.error e => Except.error e
      | Except.ok ed =>
          let sa := sd.map dtAbs
          let ea := ed.map (fun d => dtAbs d + (if isMidnight d then 86399999999 else 0))
          Except.ok (sa, ea)

/-- The record loop of `filter_records_by_date` (server.py 291-304).  A
record whose `saved_at` is falsy or parses to `None` is skipped; a
parse failure propagates as an uncaught exception (there is no
`try/except` in the loop). -/
def filterLoop (sa ea : Option Int) : List PyObj → Except String (List PyObj)
  | [] => Except.ok []
  | r :: rs =>
      match parse_iso_datetime (pyGetD r "saved_at" JValue.null) with
      | Except.error e => Except.error e
      | Except.ok none => filterLoop sa ea rs
      | Except.ok (some d) =>
          if inRange sa ea (dtAbs d) then (filterLoop sa ea rs).map (fun l => r :: l)
          else filterLoop sa ea rs

/-- `filter_records_by_date` (server.py 279-304). -/
def filter_records_by_date (records : List PyObj) (startStr endStr : Option String) :
    Except String (List PyObj) :=
  match resolveBounds startStr endStr with
  | Except.error e => Except.error e
  | Except.ok (sa, ea) => filterLoop sa ea records

/-- A record is kept by the loop: its `saved_at` parses to a datetime in
range. -/
def keepRecord (sa ea : Option Int) (r : PyObj) : Bool :=
  match parse_iso_datetime (pyGetD r "saved_at" JValue.null) with
  | Except.ok (some d) => inRange sa ea (dtAbs d)
  | _ => false

/-- A record's `saved_at` does not make the loop raise: it is falsy,
absent, or a parseable string. -/
def savedAtOk (r : PyObj) : Bool :=
  match parse_iso_datetime (pyGetD r "saved_at" JValue.null) with
  | Except.error _ => false
  | Except.ok _ => true

/-! ## Analytics Aggregator (`compute_analytics`, server.py 350-405)

Python floats are modelled as exact rationals (`round(x, 2)` is
round-half-even on the exact value); arithmetic on the non-finite floats
`NaN`/`Infinity` is not modelled and surfaces as an error instead (no
claim involves non-finite scores).  `Counter` keys must be hashable:
lists and dicts raise `TypeError`.  Python identifies `True`/`1` as dict
keys, modelled by mapping booleans to numbers. -/

/-- A hashable Python scalar, as used for `Counter` keys. -/
inductive SKey where
  | kNull : SKey
  | kNum (q : ℚ) : SKey
  | kStr (s : String) : SKey
  | kNan : SKey
  | kInf (neg : Bool) : SKey
  deriving DecidableEq

/-- Hashable projection of a value (`none` = `TypeError: unhashable`). -/
def toSKey : JValue → Option SKey
  | .null => some SKey.kNull
  | .bool b => some (SKey.kNum (if b then 1 else 0))
  | .num q => some (SKey.kNum q)
  | .str s => some (SKey.kStr s)
  | .nanV => some SKey.kNan
  | .infV n => some (SKey.kInf n)
  | .arr _ => none
  | .obj _ => none

/-- One `Counter` increment: bump an existing key in place or append it
with count 1 (first-encounter insertion order). -/
def counterAdd {α : Type} [DecidableEq α] : List (α × Nat) → α → List (α × Nat)
  | [], k => [(k, 1)]
  | (k', n) :: rest, k =>
      if k' = k then (k', n + 1) :: rest else (k', n) :: counterAdd rest k

/-- Total of the counts of a counter. -/
def sumCounts {α : Type} : List (α × Nat) → Nat
  | [] => 0
  | p :: rest => p.2 + sumCounts rest

/-- `(r.get("sentiment") or "Unknown")` (server.py 371). -/
def sentimentLabel (r : PyObj) : JValue :=
  let v := pyGetD r "sentiment" JValue.null
  if pyTruthy v then v else JValue.str "Unknown"

/-- The sentiment `Counter` of server.py 370-372, one label per record. -/
def buildSentCounter : List (SKey × Nat) → List PyObj → Except String (List (SKey × Nat))
  | acc, [] => Except.ok acc
  | acc, r :: rs =>
      match toSKey (sentimentLabel r) with
      | some k => buildSentCounter (counterAdd acc k) rs
      | none => Except.error "TypeError: unhashable type"

/-- `numeric_scores` (server.py 358): `r["score"]` raises `KeyError`
when absent; `isinstance(x, (int, float))` admits numbers and booleans. -/
def getScores : List PyObj → Except String (List ℚ)
  | [] => Except.ok []
  | r :: rs =>
      match dictGet r "score" with
      | none => Except.error "KeyError: score"
      | some v =>
          match v with
          | .num q => (getScores rs).map (fun l => q :: l)
          | .bool b => (getScores rs).map (fun l => (if b then (1 : ℚ) else 0) :: l)
          | .nanV => Except.error "nonfinite score: float arithmetic not modelled"
          | .infV _ => Except.error "nonfinite score: float arithmetic not modelled"
          | _ => getScores rs

/-- Python 3 banker's rounding to an integer. -/
def roundHalfEven (q : ℚ) : ℤ :=
  let f := ⌊q⌋
  let r := q - (f : ℚ)
  if r < 1 / 2 then f
  else if (1 : ℚ) / 2 < r then f + 1
  else if f % 2 = 0 then f else f + 1

/-- `round(q, 2)`. -/
def round2 (q : ℚ) : ℚ := ((roundHalfEven (q * 100) : ℚ)) / 100

/-- Sum of a list of rationals. -/
def qsum (l : List ℚ) : ℚ := l.foldl (fun a b => a + b) 0

/-- Stable ascending insertion (for `sorted`). -/
def insertSortedQ (x : ℚ) : List ℚ → List ℚ
  | [] => [x]
  | y :: ys => if x < y then x :: y :: ys else y :: insertSortedQ x ys

/-- `sorted` on rationals. -/
def sortQ (l : List ℚ) : List ℚ := l.foldr insertSortedQ []

/-- The flag lists of server.py 375/378: records where the key is
present and not `None`, mapped through `bool`. -/
def boolFlags (key : String) (records : List PyObj) : List Bool :=
  records.filterMap (fun r =>
    match dictGet r key with
    | none => none
    | some JValue.null => none
    | some v => some (pyTruthy v))

/-- `turns_list` (server.py 382) with its numeric coercion for `sum`;
non-numeric entries raise `TypeError`. -/
def getTurns : List PyObj → Except String (List ℚ)
  | [] => Except.ok []
  | r :: rs =>
      match pyGetD r "total_turns" (JValue.num 0) with
      | .num q => (getTurns rs).map (fun l => q :: l)
      | .bool b => (getTurns rs).map (fun l => (if b then (1 : ℚ) else 0) :: l)
      | .nanV => Except.error "nonfinite total_turns: float arithmetic not modelled"
      | .infV _ => Except.error "nonfinite total_turns: float arithmetic not modelled"
      | _ => Except.error "TypeError: unsupported operand"

/-- `str.strip()` (ASCII whitespace). -/
def pyStrip (s : String) : String :=
  String.mk (((s.toList.dropWhile isPyWS).reverse.dropWhile isPyWS).reverse)

/-- `[p.strip() for p in points if p]` (server.py 391): truthy entries
must be strings. -/
def stripAll : List JValue → Except String (List String)
  | [] => Except.ok []
  | p :: ps =>
      if pyTruthy p then
        match p with
        | .str s => (stripAll ps).map (fun l => pyStrip s :: l)
        | _ => Except.error "AttributeError: strip"
      else stripAll ps

/-- Feedback points contributed by one record (server.py 389-391):
`r.get("initial_feedback_points") or []`, skipped unless a list. -/
def feedbackOfRecord (r : PyObj) : Except String (List String) :=
  let v := pyGetD r "initial_feedback_points" JValue.null
  let points := if pyTruthy v then v else JValue.arr []
  match points with
  | .arr ps => stripAll ps
  | _ => Except.ok []

/-- The feedback `Counter` of server.py 387-391. -/
def buildFeedbackCounter : List (String × Nat) → List PyObj → Except String (List (String × Nat))
  | acc, [] => Except.ok acc
  | acc, r :: rs =>
      match feedbackOfRecord r with
      | Except.error e => Except.error e
      | Except.ok strs => buildFeedbackCounter (strs.foldl counterAdd acc) rs

/-- Stable descending insertion by count (`most_common` ordering: count
descending, ties by first encounter). -/
def insertDesc (x : String × Nat) : List (String × Nat) → List (String × Nat)
  | [] => [x]
  | y :: ys => if y.2 > x.2 then y :: insertDesc x ys else x :: y :: ys

/-- `Counter.most_common(5)`. -/
def mostCommon5 (c : List (String × Nat)) : List (String × Nat) :=
  (c.foldr insertDesc []).take 5

/-- The summary dict returned by `compute_analytics` (server.py 395-405). -/
structure Analytics where
  total_conversations : Nat
  avg_score : Option ℚ
  median_score : Option ℚ
  sentiment_breakdown : List (SKey × Nat)
  followup_required_pct : ℚ
  completed_pct : ℚ
  avg_turns : ℚ
  max_turns : ℚ
  top_feedback : List (String × Nat)

/-- `compute_analytics` (server.py 350-405); `.ok none` is the empty
dict returned for no records. -/
def compute_analytics (records : List PyObj) : Except String (Option Analytics) :=
  if records.isEmpty then Except.ok none
  else
    match getScores records with
    | Except.error e => Except.error e
    | Except.ok numeric =>
        let avg :=
          if numeric.isEmpty then none
          else some (round2 (qsum numeric / (numeric.length : ℚ)))
        let median :=
          if numeric.isEmpty then none
          else
            let sorted := sortQ numeric
            let mid := sorted.length / 2
            if sorted.length % 2 = 0 then
              some (round2 ((sorted.getD (mid - 1) 0 + sorted.getD mid 0) / 2))
            else some (round2 (sorted.getD mid 0))
        match buildSentCounter [] records with
        | Except.error e => Except.error e
        | Except.ok breakdown =>
            let fu := boolFlags "requires_followup" records
            let fuPct :=
              if fu.isEmpty then 0
              else round2 (100 * ((fu.filter id).length : ℚ) / (fu.length : ℚ))
            let co := boolFlags "conversation_complete" records
            let coPct :=
              if co.isEmpty then 0
              else round2 (100 * ((co.filter id).length : ℚ) / (co.length : ℚ))
            match getTurns records with
            | Except.error e => Except.error e
            | Except.ok turnsL =>
                let avgT :=
                  if turnsL.isEmpty then 0
                  else round2 (qsum turnsL / (turnsL.length : ℚ))
                let maxT : ℚ :=
                  match turnsL with
                  | [] => 0
                  | x :: xs => xs.foldl max x
                match buildFeedbackCounter [] records with
                | Except.error e => Except.error e
                | Except.ok fc =>
                    Except.ok (some
                      { total_conversations := records.length
                        avg_score := avg
                        median_score := median
                        sentiment_breakdown := breakdown
                        followup_required_pct := fuPct
                        completed_pct := coPct
                        avg_turns := avgT
                        max_turns := maxT
                        top_feedback := mostCommon5 fc })

/-! ## Conversation State Machine: the two endpoints

`submit_feedback` (server.py 450-592) and `submit_followup`
(server.py 595-779) are modelled as pure functions of the request form
data, the external collaborators' outcomes (upload, model call,
persistence success), and the clock strings (`now` stands for
`datetime.utcnow().isoformat() + "Z"`, `saveTs` for the
`strftime("%Y%m%d_%H%M%S")` key inside `save_conversation_file`).  The
returned triple is (HTTP response-or-error, number of
`generate_content_async` calls, resulting blob store).  Log output,
temp-file cleanup and prompt construction carry no data into the
response and are not modelled. -/

/-- An `HTTPException`. -/
structure HErr where
  status : Nat
  detail : String
  deriving DecidableEq

/-- The relevant state of an uploaded audio file: whether `.read()`
yields empty bytes. -/
structure AudioData where
  isEmptyBytes : Bool
  deriving DecidableEq

/-- Outcomes of the external collaborators for one request. -/
structure Collab where
  uploadOk : Bool
  uploadErr : String
  modelResult : Except String String

/-- Form data of `POST /submit_feedback`. -/
structure FeedbackArgs where
  score : Int
  transcription : Option String
  audio_data : Option AudioData
  business_category : Option String

/-- Form data of `POST /submit_followup`. -/
structure FollowupArgs where
  score : Int
  conversation_history : String
  transcription : Option String
  audio_data : Option AudioData
  business_category : Option String

/-- The safety-default normalization block, identical at
server.py 519-523 (`submit_feedback`) and 702-706 (`submit_followup`):
a missing `requiresFollowUp` becomes `True`; a missing
`conversationComplete` becomes `not parsed["requiresFollowUp"]`
(Python truthiness negation). -/
def normalizeParsed (parsed : PyObj) : PyObj :=
  let p1 :=
    if (dictGet parsed "requiresFollowUp").isNone then
      dictInsert parsed "requiresFollowUp" (JValue.bool true)
    else parsed
  if (dictGet p1 "conversationComplete").isNone then
    dictInsert p1 "conversationComplete"
      (JValue.bool (!(pyTruthy (pyGetD p1 "requiresFollowUp" JValue.null))))
  else p1

/-- `submit_feedback` up to (but excluding) the persistence block:
returns the normalized `parsed` dict and the fresh `history` object
(server.py 460-551), plus the model-call count. -/
def feedbackCore (a : FeedbackArgs) (c : Collab) :
    Except HErr (PyObj × PyObj) × Nat :=
  if a.score < 0 ∨ 10 < a.score then (Except.error ⟨400, "Score must be 0-10"⟩, 0)
  else
    let utrE : Except HErr (Option String) :=
      if optStrTruthy a.transcription then
        Except.ok (some (pyStrip (a.transcription.getD "")))
      else
        match a.audio_data with
        | some ad =>
            if ad.isEmptyBytes then Except.error ⟨400, "Audio file is empty"⟩
            else if c.uploadOk then Except.ok none
            else Except.error ⟨500, "Failed to upload audio to Gemini: " ++ c.uploadErr⟩
        | none => Except.error ⟨400, "Either transcription or audio_data must be provided"⟩
    match utrE with
    | Except.error e => (Except.error e, 0)
    | Except.ok utr =>
        match c.modelResult with
        | Except.error e => (Except.error ⟨500, "Error calling model: " ++ e⟩, 1)
        | Except.ok text =>
            match extract_json_from_text text.toList with
            | Except.error e =>
                (Except.error ⟨500, "Failed to parse model response as JSON: " ++ e⟩, 1)
            | Except.ok pv =>
                match pv with
                | JValue.obj parsed0 =>
                    let parsed1 := normalizeParsed parsed0
                    match dictGet parsed1 "requiresFollowUp" with
                    | some (JValue.bool _) =>
                        match dictGet parsed1 "conversationComplete" with
                        | some (JValue.bool _) =>
                            let tdef :=
                              if optStrTruthy utr then JValue.str (utr.getD "")
                              else pyGetD parsed1 "transcription" (JValue.str "")
                            let parsed2 := dictSetdefault parsed1 "transcription" tdef
                            let parsed3 :=
                              if optStrTruthy utr
                                  ∧ pyTruthy (pyGetD parsed2 "transcription" JValue.null) = false then
                                dictInsert parsed2 "transcription" (JValue.str (utr.getD ""))
                              else parsed2
                            let parsed4 := dictSetdefault parsed3 "sentiment" (JValue.str "")
                            let parsed5 := dictSetdefault parsed4 "feedback" (JValue.arr [])
                            let parsed6 :=
                              dictSetdefault parsed5 "conversationalResponse" (JValue.str "")
                            let parsed7 := dictInsert parsed6 "score" (JValue.num (a.score : ℚ))
                            let history : PyObj :=
                              [("initial_transcription", pyGetD parsed7 "transcription" JValue.null),
                               ("score", JValue.num (a.score : ℚ)),
                               ("sentiment", pyGetD parsed7 "sentiment" JValue.null),
                               ("feedback", pyGetD parsed7 "feedback" JValue.null),
                               ("turns", JValue.arr []),
                               ("business_category", optStr a.business_category)]
                            (Except.ok (parsed7, history), 1)
                        | _ =>
                            (Except.error ⟨500, "Model returned invalid conversationComplete type"⟩, 1)
                    | _ =>
                        (Except.error ⟨500, "Model returned invalid requiresFollowUp type"⟩, 1)
                | _ =>
                    -- unreachable: both extractor strategies parse a
                    -- brace-delimited candidate, so success is an object
                    (Except.error ⟨500, "model response is not an object"⟩, 1)

/-- The `initial_conversation` snapshot (server.py 555-569). -/
def initialConversation (a : FeedbackArgs) (parsed : PyObj) (now : String) : JValue :=
  JValue.obj
    [("score", JValue.num (a.score : ℚ)),
     ("sentiment", pyGetD parsed "sentiment" JValue.null),
     ("initial_transcription", pyGetD parsed "transcription" JValue.null),
     ("initial_feedback_points", pyGetD parsed "feedback" JValue.null),
     ("business_category", optStr a.business_category),
     ("turns", JValue.arr []),
     ("initial_analysis", JValue.obj parsed),
     ("metadata", JValue.obj
        [("total_turns", JValue.num 0),
         ("requires_followup", pyGetD parsed "requiresFollowUp" (JValue.bool true)),
         ("created_at", JValue.str now)]),
     ("saved_at", JValue.str now)]

/-- `POST /submit_feedback` (server.py 450-592).  The persistence block
is a `try/except` that logs and swallows failure (server.py 554-575);
`persistOk` is the collaborator outcome of the blob write. -/
def submit_feedback (a : FeedbackArgs) (c : Collab) (persistOk : Bool)
    (now saveTs : String) (store : Store) : Except HErr PyObj × Nat × Store :=
  match feedbackCore a c with
  | (Except.error e, n) => (Except.error e, n, store)
  | (Except.ok ph, n) =>
      if persistOk then
        let sres := save_conversation_file saveTs (initialConversation a ph.1 now) store
        let parsed2 := dictInsert ph.1 "saved_conversation_file" (JValue.str sres.1)
        (Except.ok (dictInsert parsed2 "history" (JValue.obj ph.2)), n, sres.2)
      else
        (Except.ok (dictInsert ph.1 "history" (JValue.obj ph.2)), n, store)

/-- The `for` loop building `history_text` (server.py 645-649) finishes
without raising: `turns` must be a list of dicts, the empty string, or
the empty dict (iterating anything else raises before the model call). -/
def turnsIterOk : JValue → Bool
  | .arr ts => ts.all (fun t => match t with | JValue.obj _ => true | _ => false)
  | .str s => s = ""
  | .obj m => m.isEmpty
  | _ => false

/-- The history-update block of `submit_followup` (server.py 726-731):
overwrite `turns`, `conversationComplete`, `last_updated` and
`business_category`; `setdefault` `initial_transcription` and `score`. -/
def updateHistory (history : PyObj) (turns : List JValue) (cc : JValue)
    (now : String) (initT : JValue) (sc : JValue) (bc : JValue) : PyObj :=
  let h1 := dictInsert history "turns" (JValue.arr turns)
  let h2 := dictInsert h1 "conversationComplete" cc
  let h3 := dictInsert h2 "last_updated" (JValue.str now)
  let h4 := dictSetdefault h3 "initial_transcription" initT
  let h5 := dictSetdefault h4 "score" sc
  dictInsert h5 "business_category" bc

/-- Intermediate state of a successful follow-up, as of server.py 731. -/
structure FollowupMid where
  parsed : PyObj
  history : PyObj
  turns : List JValue
  initialSentiment : JValue
  initialTranscription : JValue
  initialFeedback : JValue

/-- `submit_followup` up to (but excluding) the persistence block
(server.py 606-731). -/
def followupCore (a : FollowupArgs) (c : Collab) (now : String) :
    Except HErr FollowupMid × Nat :=
  if a.score < 0 ∨ 10 < a.score then (Except.error ⟨400, "Score must be 0-10"⟩, 0)
  else
    match jsonLoads a.conversation_history.toList with
    | none => (Except.error ⟨400, "conversation_history must be valid JSON string"⟩, 0)
    | some hv =>
        match hv with
        | JValue.obj history0 =>
            let initT := pyGetD history0 "initial_transcription" (JValue.str "")
            let turnsV := pyGetD history0 "turns" (JValue.arr [])
            let initSent := pyGetD history0 "sentiment" (JValue.str "")
            let initFb := pyGetD history0 "feedback" (JValue.arr [])
            let utrE : Except HErr (Option String) :=
              if optStrTruthy a.transcription then Except.ok a.transcription
              else
                match a.audio_data with
                | some ad =>
                    if ad.isEmptyBytes then Except.error ⟨400, "Audio file empty"⟩
                    else if c.uploadOk then Except.ok none
                    else Except.error ⟨500, "Failed to upload follow-up audio: " ++ c.uploadErr⟩
                | none =>
                    Except.error ⟨400, "Either transcription or audio_data must be provided"⟩
            match utrE with
            | Except.error e => (Except.error e, 0)
            | Except.ok utr =>
                if turnsIterOk turnsV = false then
                  (Except.error ⟨500, "TypeError: building history text"⟩, 0)
                else
                  match c.modelResult with
                  | Except.error e => (Except.error ⟨500, "Model error: " ++ e⟩, 1)
                  | Except.ok text =>
                      match extract_json_from_text text.toList with
                      | Except.error e =>
                          (Except.error ⟨500, "Failed to parse model response: " ++ e⟩, 1)
                      | Except.ok pv =>
                          match pv with
                          | JValue.obj parsed0 =>
                              let parsed1 := normalizeParsed parsed0
                              match dictGet parsed1 "requiresFollowUp" with
                              | some (JValue.bool _) =>
                                  match dictGet parsed1 "conversationComplete" with
                                  | some (JValue.bool _) =>
                                      let tdef :=
                                        if optStrTruthy utr then JValue.str (utr.getD "")
                                        else pyGetD parsed1 "transcription" (JValue.str "")
                                      let parsed2 := dictSetdefault parsed1 "transcription" tdef
                                      let parsed3 :=
                                        dictSetdefault parsed2 "conversationalResponse"
                                          (pyGetD parsed2 "conversationalResponse" (JValue.str ""))
                                      let parsed4 :=
                                        dictInsert parsed3 "score" (JValue.num (a.score : ℚ))
                                      match turnsV with
                                      | JValue.arr ts =>
                                          let newTurn := JValue.obj
                                            [("ai",
                                              pyGetD parsed4 "conversationalResponse" (JValue.str "")),
                                             ("user",
                                              pyGetD parsed4 "transcription"
                                                (if optStrTruthy utr then JValue.str (utr.getD "")
                                                 else JValue.str ""))]
                                          let ts2 := ts ++ [newTurn]
                                          let cc :=
                                            pyGetD parsed4 "conversationComplete" (JValue.bool false)
                                          let history1 :=
                                            updateHistory history0 ts2 cc now initT
                                              (JValue.num (a.score : ℚ)) (optStr a.business_category)
                                          (Except.ok ⟨parsed4, history1, ts2, initSent, initT, initFb⟩, 1)
                                      | _ =>
                                          -- `turns.append` on a non-list ("" or
                                          -- the empty dict) raises after the
                                          -- model call (server.py 720)
                                          (Except.error ⟨500, "AttributeError: append"⟩, 1)
                                  | _ =>
                                      (Except.error
                                        ⟨500, "Model returned invalid conversationComplete type"⟩, 1)
                              | _ =>
                                  (Except.error
                                    ⟨500, "Model returned invalid requiresFollowUp type"⟩, 1)
                          | _ =>
                              (Except.error ⟨500, "model response is not an object"⟩, 1)
        | _ =>
            -- json.loads succeeded on a non-dict: `history.get` raises
            -- AttributeError, caught by the blanket handler as a 500
            (Except.error ⟨500, "AttributeError: get"⟩, 0)

/-- The `updated_conversation` snapshot (server.py 736-751). -/
def updatedConversation (a : FollowupArgs) (m : FollowupMid) (now : String) : JValue :=
  JValue.obj
    [("score", JValue.num (a.score : ℚ)),
     ("sentiment", m.initialSentiment),
     ("initial_transcription", m.initialTranscription),
     ("initial_feedback_points", m.initialFeedback),
     ("business_category", optStr a.business_category),
     ("turns", JValue.arr m.turns),
     ("latest_analysis", JValue.obj m.parsed),
     ("metadata", JValue.obj
        [("total_turns", JValue.num (m.turns.length : ℚ)),
         ("requires_followup", pyGetD m.parsed "requiresFollowUp" (JValue.bool true)),
         ("conversation_complete", pyGetD m.parsed "conversationComplete" (JValue.bool false)),
         ("updated_at", JValue.str now)]),
     ("saved_at", JValue.str now)]

/-- The response dict of `submit_followup` (server.py 760-767).  It is
built after the persistence block but reads none of the keys that block
writes, so it depends only on the pre-persistence state. -/
def followupResult (a : FollowupArgs) (m : FollowupMid) : PyObj :=
  [("transcription", pyGetD m.parsed "transcription" (JValue.str "")),
   ("conversationalResponse", pyGetD m.parsed "conversationalResponse" (JValue.str "")),
   ("requiresFollowUp", pyGetD m.parsed "requiresFollowUp" (JValue.bool true)),
   ("conversationComplete", pyGetD m.parsed "conversationComplete" (JValue.bool false)),
   ("score", JValue.num (a.score : ℚ)),
   ("history", JValue.obj m.history)]

/-- `POST /submit_followup` (server.py 595-779); the persistence block
(server.py 733-757) logs and swallows failure. -/
def submit_followup (a : FollowupArgs) (c : Collab) (persistOk : Bool)
    (now saveTs : String) (store : Store) : Except HErr PyObj × Nat × Store :=
  match followupCore a c now with
  | (Except.error e, n) => (Except.error e, n, store)
  | (Except.ok m, n) =>
      if persistOk then
        let sres := save_conversation_file saveTs (updatedConversation a m now) store
        (Except.ok (followupResult a m), n, sres.2)
      else (Except.ok (followupResult a m), n, store)

/-! ## Projection helpers and concrete scenario data used by the
verification statements below -/

/-- A field of a successful response dict. -/
def okGet (x : Except HErr PyObj) (k : String) : Option JValue :=
  match x with
  | Except.ok r => dictGet r k
  | Except.error _ => none

/-- A field of the `history` object of a successful response. -/
def histGet (x : Except HErr PyObj) (k : String) : Option JValue :=
  match okGet x "history" with
  | some (JValue.obj h) => dictGet h k
  | _ => none

/-- Total of the sentiment-breakdown counts of an analytics result. -/
def analyticsBreakdownSum (x : Except String (Option Analytics)) : Option Nat :=
  match x with
  | Except.ok (some a) => some (sumCounts a.sentiment_breakdown)
  | _ => none

/-- `total_conversations` of an analytics result. -/
def analyticsTotal (x : Except String (Option Analytics)) : Option Nat :=
  match x with
  | Except.ok (some a) => some a.total_conversations
  | _ => none

/-- A well-formed fenced block holding a JSON object. -/
def c6good : String := "```\x7b\"a\": 1\x7d```"

/-- A text containing `c6good` preceded by an earlier fenced block whose
content is not valid JSON. -/
def c6text : String := "```\x7bx\x7d``` " ++ c6good

/-- A model reply wrapping a fenced JSON object in prose. -/
def c6prose : String := "Sure! Here you go:\n```json\n\x7b\"ok\": true\x7d\n```\nCheers."

/-- Prose followed by single-quoted pseudo-JSON (built from characters
so the quote is explicit): `Result: \x7b'a': 1, 'b': 'ok'\x7d`. -/
def c7text : List Char :=
  "Result: \x7b".toList ++ [squote] ++ "a".toList ++ [squote] ++ ": 1, ".toList
    ++ [squote] ++ "b".toList ++ [squote] ++ ": ".toList ++ [squote] ++ "ok".toList
    ++ [squote] ++ "\x7d".toList

/-- The brace-delimited span of `c7text` (after the 8-character prose). -/
def c7cand : List Char := c7text.drop 8

/-- An input history (as the JSON string the client posts) carrying a
`business_category` and a `conversationComplete` flag. -/
def c9histStr : String :=
  "\x7b\"initial_transcription\": \"hi\", \"sentiment\": \"Positive\", \"feedback\": [], \"turns\": [], \"business_category\": \"medical\", \"conversationComplete\": false\x7d"

/-- The parsed form of `c9histStr`. -/
def c9histObj : PyObj :=
  [("initial_transcription", JValue.str "hi"), ("sentiment", JValue.str "Positive"),
   ("feedback", JValue.arr []), ("turns", JValue.arr []),
   ("business_category", JValue.str "medical"), ("conversationComplete", JValue.bool false)]

/-- A follow-up request posting `c9histStr` with no `business_category`
form field. -/
def c9args : FollowupArgs := ⟨5, c9histStr, some "more detail", none, none⟩

/-- Collaborators for `c9args`: the model replies with a complete turn. -/
def c9collab : Collab :=
  ⟨true, "",
   Except.ok "\x7b\"transcription\": \"more detail\", \"conversationalResponse\": \"ok!\", \"requiresFollowUp\": false, \"conversationComplete\": true\x7d"⟩

/-- A successful initial-feedback request. -/
def c8args : FeedbackArgs := ⟨7, some "great product", none, some "ecommerce"⟩

/-- Collaborators for `c8args`: upload fine, model replies with JSON. -/
def c8collab : Collab :=
  ⟨true, "",
   Except.ok "\x7b\"transcription\": \"great product\", \"sentiment\": \"Positive\", \"feedback\": [\"product\"], \"conversationalResponse\": \"Nice!\", \"requiresFollowUp\": false\x7d"⟩

/-- A successful follow-up request. -/
def c8fuArgs : FollowupArgs :=
  ⟨5, "\x7b\"initial_transcription\": \"hi\", \"turns\": []\x7d", some "more", none, none⟩

/-- Collaborators for `c8fuArgs`. -/
def c8fuCollab : Collab :=
  ⟨true, "",
   Except.ok "\x7b\"transcription\": \"more\", \"conversationalResponse\": \"thanks!\", \"requiresFollowUp\": false, \"conversationComplete\": true\x7d"⟩

/-- Record saved late on 2025-01-01 (UTC). -/
def c5recIn : PyObj := [("saved_at", JValue.str "2025-01-01T23:59:00Z"), ("score", JValue.num 9)]

/-- Record saved just after midnight on 2025-01-02 (UTC). -/
def c5recOut : PyObj := [("saved_at", JValue.str "2025-01-02T00:00:01Z"), ("score", JValue.num 2)]

/-- Record with no `saved_at` at all. -/
def c5recMissing : PyObj := [("score", JValue.num 5)]

/-- Record whose `saved_at` does not parse. -/
def c5badRec : PyObj := [("saved_at", JValue.str "not-a-date")]

/-- Three loaded records with sentiments Positive, Negative and empty. -/
def c10recs : List PyObj :=
  [[("score", JValue.num 9), ("sentiment", JValue.str "Positive"), ("total_turns", JValue.num 1)],
   [("score", JValue.num 2), ("sentiment", JValue.str "Negative"), ("total_turns", JValue.num 2)],
   [("score", JValue.num 5), ("sentiment", JValue.str ""), ("total_turns", JValue.num 0)]]

/-! ## Dictionary lemmas -/

theorem dictGet_insert_self (d : PyObj) (k : String) (v : JValue) :
    dictGet (dictInsert d k v) k = some v := by
  induction d with
  | nil => simp [dictInsert, dictGet]
  | cons hd tl ih =>
      obtain ⟨k', v'⟩ := hd
      by_cases h : k' = k
      · simp [dictInsert, dictGet, h]
      · simp [dictInsert, dictGet, h, ih]

theorem dictGet_insert_ne (d : PyObj) (k k' : String) (v : JValue)
    (h : k' ≠ k) : dictGet (dictInsert d k v) k' = dictGet d k' := by
  induction d with
  | nil =>
      simp only [dictInsert, dictGet]
      rw [if_neg (Ne.symm h)]
  | cons hd tl ih =>
      obtain ⟨k₀, v₀⟩ := hd
      by_cases h0 : k₀ = k
      · subst h0
        simp only [dictInsert, dictGet, if_pos rfl]
        rw [if_neg (fun hh => h (hh.symm)), if_neg (fun hh => h (hh.symm))]
      · by_cases h1 : k₀ = k'
        · subst h1
          simp [dictInsert, dictGet, h0, Ne.symm h]
        · simp [dictInsert, dictGet, h0, h1, ih]

theorem dictGet_setdefault_ne (d : PyObj) (k k' : String) (v : JValue)
    (h : k' ≠ k) : dictGet (dictSetdefault d k v) k' = dictGet d k' := by
  unfold dictSetdefault
  by_cases hs : (dictGet d k).isSome
  · simp [hs]
  · simp [hs, dictGet_insert_ne d k k' v h]

theorem dictGet_setdefault_present (d : PyObj) (k : String) (v : JValue)
    (h : (dictGet d k).isSome) : dictGet (dictSetdefault d k v) k = dictGet d k := by
  simp [dictSetdefault, h]

theorem dictGet_setdefault_absent (d : PyObj) (k : String) (v : JValue)
    (h : dictGet d k = none) : dictGet (dictSetdefault d k v) k = some v := by
  simp [dictSetdefault, h, dictGet_insert_self]

/-! ## Claims -/

/-- C1: Normalization default law: for every parsed model result missing
`requiresFollowUp`, the normalization block (server.py 519-523 in
`submit_feedback`, identically 702-706 in `submit_followup`, both
embedded as `normalizeParsed` and invoked by `feedbackCore` and
`followupCore`) sets `requiresFollowUp` to `true`; if
`conversationComplete` is also missing it is set to the logical negation
of `requiresFollowUp`, hence `false`. -/
theorem C1_normalization_default_law (parsed : PyObj)
    (h : dictGet parsed "requiresFollowUp" = none) :
    dictGet (normalizeParsed parsed) "requiresFollowUp" = some (JValue.bool true)
      ∧ (dictGet parsed "conversationComplete" = none →
          dictGet (normalizeParsed parsed) "conversationComplete" = some (JValue.bool false)) := by
  have hne : ("requiresFollowUp" : String) ≠ "conversationComplete" := by decide
  have hp1self :
      dictGet (dictInsert parsed "requiresFollowUp" (JValue.bool true)) "requiresFollowUp"
        = some (JValue.bool true) :=
    dictGet_insert_self parsed "requiresFollowUp" (JValue.bool true)
  unfold normalizeParsed
  simp only [h, Option.isNone_none, if_true]
  constructor
  · by_cases h2 :
        (dictGet (dictInsert parsed "requiresFollowUp" (JValue.bool true))
          "conversationComplete").isNone
    · simp only [h2, if_true]
      rw [dictGet_insert_ne _ _ _ _ hne]
      exact hp1self
    · simp only [h2, if_false]
      exact hp1self
  · intro h3
    have h4 :
        dictGet (dictInsert parsed "requiresFollowUp" (JValue.bool true)) "conversationComplete"
          = none := by
      rw [dictGet_insert_ne _ _ _ _ (Ne.symm hne)]
      exact h3
    simp only [h4, Option.isNone_none, if_true]
    have h5 :
        pyGetD (dictInsert parsed "requiresFollowUp" (JValue.bool true)) "requiresFollowUp"
          JValue.null = JValue.bool true := by
      unfold pyGetD
      rw [hp1self]
      rfl
    rw [h5]
    exact dictGet_insert_self _ _ _

/-- Witness for C1 at a parsed result holding only a
`conversationalResponse`. -/
theorem C1_witness :
    dictGet [("conversationalResponse", JValue.str "hi")] "requiresFollowUp" = none
      ∧ dictGet (normalizeParsed [("conversationalResponse", JValue.str "hi")])
          "requiresFollowUp" = some (JValue.bool true)
      ∧ dictGet (normalizeParsed [("conversationalResponse", JValue.str "hi")])
          "conversationComplete" = some (JValue.bool false) :=
  ⟨rfl,
   (C1_normalization_default_law [("conversationalResponse", JValue.str "hi")] rfl).1,
   (C1_normalization_default_law [("conversationalResponse", JValue.str "hi")] rfl).2 rfl⟩

/-- C2: every score outside [0, 10] makes both endpoints reject with the
400 validation failure, with zero model calls and the blob store
untouched. -/
theorem C2_score_range_rejected (s : Int) (hs : s < 0 ∨ 10 < s) :
    (∀ (t : Option String) (ad : Option AudioData) (bc : Option String) (c : Collab)
        (p : Bool) (now ts : String) (st : Store),
        submit_feedback ⟨s, t, ad, bc⟩ c p now ts st
          = (Except.error ⟨400, "Score must be 0-10"⟩, 0, st))
      ∧ (∀ (ch : String) (t : Option String) (ad : Option AudioData) (bc : Option String)
          (c : Collab) (p : Bool) (now ts : String) (st : Store),
          submit_followup ⟨s, ch, t, ad, bc⟩ c p now ts st
            = (Except.error ⟨400, "Score must be 0-10"⟩, 0, st)) := by
  constructor
  · intro t ad bc c p now ts st
    simp [submit_feedback, feedbackCore, hs]
  · intro ch t ad bc c p now ts st
    simp [submit_followup, followupCore, hs]

/-- Witness for C2 at scores 11 and -1. -/
theorem C2_witness :
    submit_feedback ⟨11, some "x", none, none⟩ ⟨true, "", Except.ok "y"⟩ true "n" "t" []
        = (Except.error ⟨400, "Score must be 0-10"⟩, 0, [])
      ∧ submit_followup ⟨-1, "\x7b\x7d", some "x", none, none⟩ ⟨true, "", Except.ok "y"⟩
          true "n" "t" []
        = (Except.error ⟨400, "Score must be 0-10"⟩, 0, []) :=
  ⟨(C2_score_range_rejected 11 (Or.inr (by decide))).1 _ _ _ _ _ _ _ _,
   (C2_score_range_rejected (-1) (Or.inl (by decide))).2 _ _ _ _ _ _ _ _ _⟩

/-- C3: two saves whose `strftime("%Y%m%d_%H%M%S")` timestamps fall in
the same second derive the same filename, and the later `open(path, "w")`
replaces the earlier snapshot: after both saves the store holds only the
second payload.  This contradicts the spec's collision-resistance
requirement, so the claim is recorded as a code bug. -/
theorem C3_same_second_saves_collide :
    (save_conversation_file "20250101_120000" (JValue.str "first") []).1
        = (save_conversation_file "20250101_120000" (JValue.str "second") []).1
      ∧ (save_conversation_file "20250101_120000" (JValue.str "second")
          (save_conversation_file "20250101_120000" (JValue.str "first") []).2).2
        = [("conversation_20250101_120000.json", JValue.str "second")] :=
  ⟨rfl, rfl⟩

/-- C4: a `conversation_history` that `json.loads` cannot parse makes
`submit_followup` fail immediately with the 400 validation error, with
no model call and no store change (server.py 610-613); a history that
parses to a non-dict also stops before any model call or side effect
(`history.get` raises, surfaced as a 500 by the blanket handler). -/
theorem C4_malformed_history_rejected (a : FollowupArgs) (c : Collab) (p : Bool)
    (now ts : String) (st : Store) (h0 : 0 ≤ a.score) (h10 : a.score ≤ 10) :
    (jsonLoads a.conversation_history.toList = none →
        submit_followup a c p now ts st
          = (Except.error ⟨400, "conversation_history must be valid JSON string"⟩, 0, st))
      ∧ (∀ hv, jsonLoads a.conversation_history.toList = some hv →
          (∀ entries, hv ≠ JValue.obj entries) →
          submit_followup a c p now ts st
            = (Except.error ⟨500, "AttributeError: get"⟩, 0, st)) := by
  have hs : ¬ (a.score < 0 ∨ 10 < a.score) := by omega
  constructor
  · intro hj
    have hj2 : jsonLoads a.conversation_history.data = none := hj
    simp [submit_followup, followupCore, hs, hj2]
  · intro hv hj hno
    have hj2 : jsonLoads a.conversation_history.data = some hv := hj
    cases hv with
    | obj entries => exact absurd rfl (hno entries)
    | null => simp [submit_followup, followupCore, hs, hj2]
    | bool b => simp [submit_followup, followupCore, hs, hj2]
    | num q => simp [submit_followup, followupCore, hs, hj2]
    | str s => simp [submit_followup, followupCore, hs, hj2]
    | arr l => simp [submit_followup, followupCore, hs, hj2]
    | nanV => simp [submit_followup, followupCore, hs, hj2]
    | infV b => simp [submit_followup, followupCore, hs, hj2]

/-- Witness for C4: an unparseable history and a JSON-number history. -/
theorem C4_witness :
    submit_followup ⟨5, "not json", some "x", none, none⟩ ⟨true, "", Except.ok "y"⟩
        true "n" "t" []
      = (Except.error ⟨400, "conversation_history must be valid JSON string"⟩, 0, [])
      ∧ submit_followup ⟨5, "5", some "x", none, none⟩ ⟨true, "", Except.ok "y"⟩
          true "n" "t" []
        = (Except.error ⟨500, "AttributeError: get"⟩, 0, []) :=
  ⟨(C4_malformed_history_rejected ⟨5, "not json", some "x", none, none⟩
      ⟨true, "", Except.ok "y"⟩ true "n" "t" [] (by decide) (by decide)).1 rfl,
   (C4_malformed_history_rejected ⟨5, "5", some "x", none, none⟩
      ⟨true, "", Except.ok "y"⟩ true "n" "t" [] (by decide) (by decide)).2
     (JValue.num 5) rfl (fun _ hh => JValue.noConfusion hh)⟩

/-- C6 (amended): for every raw text on which the fenced-block search
finds a candidate whose content strictly parses as JSON, extract returns
that parsed object, even with surrounding prose.  The original claim —
any text *containing* a fenced block holding a JSON object — fails when
an earlier fenced block holds invalid JSON (see `C6_counterexample`). -/
theorem C6_fenced_extraction (text cand : List Char) (v : JValue)
    (h1 : searchFence text = some cand) (h2 : jsonLoads cand = some v) :
    extract_json_from_text text = Except.ok v := by
  cases text with
  | nil => exact absurd h1 (by simp [searchFence])
  | cons c rest => simp [extract_json_from_text, h1, h2]

/-- Counterexample for C6 as frozen: `c6text` contains (as its tail) the
fenced block `c6good` holding the JSON object `\x7b"a": 1\x7d` — on its
own that block extracts fine — yet `extract_json_from_text` on the full
text fails, because the earlier fenced block `\x7bx\x7d` is matched
first, its parse fails, and the greedy brace-span fallback swallows both
blocks. -/
theorem C6_counterexample :
    c6text = "```\x7bx\x7d``` " ++ c6good
      ∧ extract_json_from_text c6good.toList = Except.ok (JValue.obj [("a", JValue.num 1)])
      ∧ extract_json_from_text c6text.toList
          = Except.error "No valid JSON found in model output" :=
  ⟨rfl, rfl, rfl⟩

/-- Witness for C6 on a fenced JSON object surrounded by prose. -/
theorem C6_witness :
    searchFence c6prose.toList = some "\x7b\"ok\": true\x7d".toList
      ∧ jsonLoads "\x7b\"ok\": true\x7d".toList = some (JValue.obj [("ok", JValue.bool true)])
      ∧ extract_json_from_text c6prose.toList
          = Except.ok (JValue.obj [("ok", JValue.bool true)]) :=
  ⟨rfl, rfl,
   C6_fenced_extraction c6prose.toList "\x7b\"ok\": true\x7d".toList
     (JValue.obj [("ok", JValue.bool true)]) rfl rfl⟩

/-- C7: for raw text with no fenced block whose brace-delimited span
(first opening to last closing brace) fails strict parse but parses
after replacing single quotes with double quotes — the claim's reading
of "single-quoted pseudo-JSON" — extract succeeds via the repair path
(server.py 204-216). -/
theorem C7_single_quote_repair (text cand : List Char) (v : JValue)
    (hf : searchFence text = none) (hb : braceSpan text = some cand)
    (h1 : jsonLoads cand = none) (h2 : jsonLoads (replaceQuotes cand) = some v) :
    extract_json_from_text text = Except.ok v := by
  cases text with
  | nil => exact absurd hb (by simp [braceSpan])
  | cons c rest => simp [extract_json_from_text, extractBrace, hf, hb, h1, h2]

/-- Witness for C7 on `Result: \x7b'a': 1, 'b': 'ok'\x7d`. -/
theorem C7_witness :
    searchFence c7text = none
      ∧ braceSpan c7text = some c7cand
      ∧ jsonLoads c7cand = none
      ∧ jsonLoads (replaceQuotes c7cand)
          = some (JValue.obj [("a", JValue.num 1), ("b", JValue.str "ok")])
      ∧ extract_json_from_text c7text
          = Except.ok (JValue.obj [("a", JValue.num 1), ("b", JValue.str "ok")]) :=
  ⟨rfl, rfl, rfl, rfl,
   C7_single_quote_repair c7text c7cand
     (JValue.obj [("a", JValue.num 1), ("b", JValue.str "ok")]) rfl rfl rfl rfl⟩

/-- C8: whenever a request succeeds with persistence working (model call
and extraction succeeded), the identical request with a failing blob
write still returns a successful response carrying the same generated
content: the persistence failure is logged and swallowed
(server.py 554-575 and 733-757).  The store is untouched, the model-call
count is unchanged, every feedback-response field except
`saved_conversation_file` is identical, and the follow-up response is
identical outright. -/
theorem C8_persistence_failure_swallowed (now ts : String) (st : Store) :
    (∀ (a : FeedbackArgs) (c : Collab),
        (submit_feedback a c true now ts st).1.isOk = true →
          (submit_feedback a c false now ts st).1.isOk = true
            ∧ (submit_feedback a c false now ts st).2.2 = st
            ∧ (submit_feedback a c false now ts st).2.1
                = (submit_feedback a c true now ts st).2.1
            ∧ ∀ k, k ≠ "saved_conversation_file" →
                okGet (submit_feedback a c false now ts st).1 k
                  = okGet (submit_feedback a c true now ts st).1 k)
      ∧ (∀ (b : FollowupArgs) (c : Collab),
          (submit_followup b c true now ts st).1.isOk = true →
            (submit_followup b c false now ts st).1
                = (submit_followup b c true now ts st).1
              ∧ (submit_followup b c false now ts st).2.2 = st
              ∧ (submit_followup b c false now ts st).2.1
                  = (submit_followup b c true now ts st).2.1) := by
  constructor
  · intro a c hok
    rcases hc : feedbackCore a c with ⟨res, n⟩
    cases res with
    | error e => simp [submit_feedback, hc, Except.isOk, Except.toBool] at hok
    | ok ph =>
        refine ⟨by simp [submit_feedback, hc, Except.isOk, Except.toBool],
          by simp [submit_feedback, hc], by simp [submit_feedback, hc], ?_⟩
        intro k hk
        simp only [submit_feedback, hc, okGet]
        simp only [Bool.false_eq_true, if_false, if_true]
        by_cases hhist : k = "history"
        · subst hhist
          rw [dictGet_insert_self, dictGet_insert_self]
        · rw [dictGet_insert_ne _ _ _ _ hhist, dictGet_insert_ne _ _ _ _ hhist,
            dictGet_insert_ne _ _ _ _ hk]
  · intro b c hok
    rcases hc : followupCore b c now with ⟨res, n⟩
    cases res with
    | error e => simp [submit_followup, hc, Except.isOk, Except.toBool] at hok
    | ok m =>
        exact ⟨by simp [submit_followup, hc], by simp [submit_followup, hc],
          by simp [submit_followup, hc]⟩

/-- Witness for C8: a concrete successful run of each endpoint with the
blob write failing. -/
theorem C8_witness :
    (submit_feedback c8args c8collab false "n" "t" []).1.isOk = true
      ∧ (submit_feedback c8args c8collab false "n" "t" []).2.2 = ([] : Store)
      ∧ (submit_followup c8fuArgs c8fuCollab false "n" "t" []).1
          = (submit_followup c8fuArgs c8fuCollab true "n" "t" []).1
      ∧ (submit_followup c8fuArgs c8fuCollab false "n" "t" []).2.2 = ([] : Store) := by
  have h1 := (C8_persistence_failure_swallowed "n" "t" []).1 c8args c8collab (by rfl)
  have h2 := (C8_persistence_failure_swallowed "n" "t" []).2 c8fuArgs c8fuCollab (by rfl)
  exact ⟨h1.1, h1.2.1, h2.1, h2.2.1⟩

/-- C9 (amended): the history object returned by the follow-up operation
(built by `updateHistory`, the exact block at server.py 726-731 whose
result `followupResult` returns) is the input history with the new turn
list installed and `last_updated` set — but additionally
`conversationComplete` is overwritten with the model result's flag and
`business_category` with the request's form value (possibly `None`),
and `initial_transcription`/`score` are inserted when absent.  Every
field outside those six keys is preserved unchanged.  The frozen claim
("every other field preserved") fails on `business_category` and
`conversationComplete`: see `C9_counterexample`. -/
theorem C9_history_update_frame (history : PyObj) (turns : List JValue)
    (cc : JValue) (now : String) (initT sc bc : JValue) :
    dictGet (updateHistory history turns cc now initT sc bc) "turns"
        = some (JValue.arr turns)
      ∧ dictGet (updateHistory history turns cc now initT sc bc) "conversationComplete"
          = some cc
      ∧ dictGet (updateHistory history turns cc now initT sc bc) "last_updated"
          = some (JValue.str now)
      ∧ dictGet (updateHistory history turns cc now initT sc bc) "business_category"
          = some bc
      ∧ (dictGet history "initial_transcription" = none →
          dictGet (updateHistory history turns cc now initT sc bc) "initial_transcription"
            = some initT)
      ∧ (∀ v, dictGet history "initial_transcription" = some v →
          dictGet (updateHistory history turns cc now initT sc bc) "initial_transcription"
            = some v)
      ∧ (dictGet history "score" = none →
          dictGet (updateHistory history turns cc now initT sc bc) "score" = some sc)
      ∧ (∀ v, dictGet history "score" = some v →
          dictGet (updateHistory history turns cc now initT sc bc) "score" = some v)
      ∧ (∀ k, k ∉ ["turns", "conversationComplete", "last_updated",
            "initial_transcription", "score", "business_category"] →
          dictGet (updateHistory history turns cc now initT sc bc) k = dictGet history k) := by
  have hTC : ("turns" : String) ≠ "conversationComplete" := by decide
  have hTL : ("turns" : String) ≠ "last_updated" := by decide
  have hTI : ("turns" : String) ≠ "initial_transcription" := by decide
  have hTS : ("turns" : String) ≠ "score" := by decide
  have hTB : ("turns" : String) ≠ "business_category" := by decide
  have hCL : ("conversationComplete" : String) ≠ "last_updated" := by decide
  have hCI : ("conversationComplete" : String) ≠ "initial_transcription" := by decide
  have hCS : ("conversationComplete" : String) ≠ "score" := by decide
  have hCB : ("conversationComplete" : String) ≠ "business_category" := by decide
  have hLI : ("last_updated" : String) ≠ "initial_transcription" := by decide
  have hLS : ("last_updated" : String) ≠ "score" := by decide
  have hLB : ("last_updated" : String) ≠ "business_category" := by decide
  have hIS : ("initial_transcription" : String) ≠ "score" := by decide
  have hIB : ("initial_transcription" : String) ≠ "business_category" := by decide
  have hSB : ("score" : String) ≠ "business_category" := by decide
  have hIT : ("initial_transcription" : String) ≠ "turns" := fun h => hTI h.symm
  have hIC : ("initial_transcription" : String) ≠ "conversationComplete" := fun h => hCI h.symm
  have hIL : ("initial_transcription" : String) ≠ "last_updated" := fun h => hLI h.symm
  have hST : ("score" : String) ≠ "turns" := fun h => hTS h.symm
  have hSC : ("score" : String) ≠ "conversationComplete" := fun h => hCS h.symm
  have hSL : ("score" : String) ≠ "last_updated" := fun h => hLS h.symm
  have hSI : ("score" : String) ≠ "initial_transcription" := fun h => hIS h.symm
  refine ⟨?_, ?_, ?_, ?_, ?_, ?_, ?_, ?_, ?_⟩
  · simp only [updateHistory]
    rw [dictGet_insert_ne _ _ _ _ hTB, dictGet_setdefault_ne _ _ _ _ hTS,
      dictGet_setdefault_ne _ _ _ _ hTI, dictGet_insert_ne _ _ _ _ hTL,
      dictGet_insert_ne _ _ _ _ hTC, dictGet_insert_self]
  · simp only [updateHistory]
    rw [dictGet_insert_ne _ _ _ _ hCB, dictGet_setdefault_ne _ _ _ _ hCS,
      dictGet_setdefault_ne _ _ _ _ hCI, dictGet_insert_ne _ _ _ _ hCL,
      dictGet_insert_self]
  · simp only [updateHistory]
    rw [dictGet_insert_ne _ _ _ _ hLB, dictGet_setdefault_ne _ _ _ _ hLS,
      dictGet_setdefault_ne _ _ _ _ hLI, dictGet_insert_self]
  · simp only [updateHistory]
    rw [dictGet_insert_self]
  · intro h
    simp only [updateHistory]
    have h3 : dictGet (dictInsert (dictInsert (dictInsert history "turns" (JValue.arr turns))
        "conversationComplete" cc) "last_updated" (JValue.str now)) "initial_transcription"
        = none := by
      rw [dictGet_insert_ne _ _ _ _ hIL, dictGet_insert_ne _ _ _ _ hIC,
        dictGet_insert_ne _ _ _ _ hIT]
      exact h
    rw [dictGet_insert_ne _ _ _ _ hIB, dictGet_setdefault_ne _ _ _ _ hIS,
      dictGet_setdefault_absent _ _ _ h3]
  · intro v h
    simp only [updateHistory]
    have h3 : dictGet (dictInsert (dictInsert (dictInsert history "turns" (JValue.arr turns))
        "conversationComplete" cc) "last_updated" (JValue.str now)) "initial_transcription"
        = some v := by
      rw [dictGet_insert_ne _ _ _ _ hIL, dictGet_insert_ne _ _ _ _ hIC,
        dictGet_insert_ne _ _ _ _ hIT]
      exact h
    rw [dictGet_insert_ne _ _ _ _ hIB, dictGet_setdefault_ne _ _ _ _ hIS,
      dictGet_setdefault_present _ _ _ (by rw [h3]; rfl), h3]
  · intro h
    simp only [updateHistory]
    have h4 : dictGet (dictSetdefault (dictInsert (dictInsert (dictInsert history "turns"
        (JValue.arr turns)) "conversationComplete" cc) "last_updated" (JValue.str now))
        "initial_transcription" initT) "score" = none := by
      rw [dictGet_setdefault_ne _ _ _ _ hSI, dictGet_insert_ne _ _ _ _ hSL,
        dictGet_insert_ne _ _ _ _ hSC, dictGet_insert_ne _ _ _ _ hST]
      exact h
    rw [dictGet_insert_ne _ _ _ _ hSB, dictGet_setdefault_absent _ _ _ h4]
  · intro v h
    simp only [updateHistory]
    have h4 : dictGet (dictSetdefault (dictInsert (dictInsert (dictInsert history "turns"
        (JValue.arr turns)) "conversationComplete" cc) "last_updated" (JValue.str now))
        "initial_transcription" initT) "score" = some v := by
      rw [dictGet_setdefault_ne _ _ _ _ hSI, dictGet_insert_ne _ _ _ _ hSL,
        dictGet_insert_ne _ _ _ _ hSC, dictGet_insert_ne _ _ _ _ hST]
      exact h
    rw [dictGet_insert_ne _ _ _ _ hSB, dictGet_setdefault_present _ _ _ (by rw [h4]; rfl), h4]
  · intro k hk
    simp only [List.mem_cons, List.not_mem_nil, or_false, not_or] at hk
    obtain ⟨hT, hC, hL, hI, hS, hB⟩ := hk
    simp only [updateHistory]
    rw [dictGet_insert_ne _ _ _ _ hB, dictGet_setdefault_ne _ _ _ _ hS,
      dictGet_setdefault_ne _ _ _ _ hI, dictGet_insert_ne _ _ _ _ hL,
      dictGet_insert_ne _ _ _ _ hC, dictGet_insert_ne _ _ _ _ hT]

/-- Counterexample for C9 as frozen: the input history carries
`business_category = "medical"` and `conversationComplete = false`; the
follow-up request posts no `business_category` form field and the model
completes the conversation.  The returned history has
`business_category = null` and `conversationComplete = true` — fields of
the input history other than `turns`/`last_updated` were not preserved. -/
theorem C9_counterexample :
    jsonLoads c9args.conversation_history.toList = some (JValue.obj c9histObj)
      ∧ dictGet c9histObj "business_category" = some (JValue.str "medical")
      ∧ dictGet c9histObj "conversationComplete" = some (JValue.bool false)
      ∧ histGet (submit_followup c9args c9collab true "now" "ts" []).1 "business_category"
          = some JValue.null
      ∧ histGet (submit_followup c9args c9collab true "now" "ts" []).1 "conversationComplete"
          = some (JValue.bool true)
      ∧ some JValue.null ≠ some (JValue.str "medical") := by
  refine ⟨rfl, rfl, rfl, rfl, rfl, ?_⟩
  intro h
  injection h with h2
  exact JValue.noConfusion h2

/-- Witness for C9 at the concrete history `c9histObj`: a field outside
the written keys (`sentiment`) is preserved, and `turns` receives the
appended list. -/
theorem C9_witness :
    dictGet (updateHistory c9histObj [JValue.str "t1"] (JValue.bool true) "now"
        (JValue.str "hi") (JValue.num 5) JValue.null) "sentiment"
        = some (JValue.str "Positive")
      ∧ dictGet (updateHistory c9histObj [JValue.str "t1"] (JValue.bool true) "now"
          (JValue.str "hi") (JValue.num 5) JValue.null) "turns"
          = some (JValue.arr [JValue.str "t1"]) := by
  have h := C9_history_update_frame c9histObj [JValue.str "t1"] (JValue.bool true) "now"
    (JValue.str "hi") (JValue.num 5) JValue.null
  exact ⟨(h.2.2.2.2.2.2.2.2 "sentiment" (by decide)).trans rfl, h.1⟩

/-- The filter loop keeps exactly the records whose `saved_at` parses to
an in-range datetime, provided no record's `saved_at` makes the loop
raise. -/
theorem filterLoop_eq_filter (sa ea : Option Int) (records : List PyObj)
    (hok : ∀ r ∈ records, savedAtOk r = true) :
    filterLoop sa ea records = Except.ok (records.filter (keepRecord sa ea)) := by
  induction records with
  | nil => rfl
  | cons r rs ih =>
      have hr := hok r (List.mem_cons_self r rs)
      have hrs : ∀ x ∈ rs, savedAtOk x = true := fun x hx => hok x (List.mem_cons_of_mem r hx)
      have ih2 := ih hrs
      unfold savedAtOk at hr
      cases hp : parse_iso_datetime (pyGetD r "saved_at" JValue.null) with
      | error e =>
          rw [hp] at hr
          exact absurd hr (by simp)
      | ok od =>
          cases od with
          | none =>
              have hk : keepRecord sa ea r = false := by
                unfold keepRecord
                rw [hp]
              have hl : filterLoop sa ea (r :: rs) = filterLoop sa ea rs := by
                conv_lhs => rw [filterLoop]
                simp only [hp]
              rw [hl, ih2]
              simp [List.filter_cons, hk]
          | some d =>
              have hk : keepRecord sa ea r = inRange sa ea (dtAbs d) := by
                unfold keepRecord
                rw [hp]
              by_cases hin : inRange sa ea (dtAbs d) = true
              · have hl : filterLoop sa ea (r :: rs)
                    = (filterLoop sa ea rs).map (fun l => r :: l) := by
                  conv_lhs => rw [filterLoop]
                  simp only [hp]
                  rw [if_pos hin]
                rw [hl, ih2]
                simp [List.filter_cons, hk.trans hin, Except.map]
              · have hinf : inRange sa ea (dtAbs d) = false := by
                  cases hx : inRange sa ea (dtAbs d) with
                  | true => exact absurd hx hin
                  | false => rfl
                have hl : filterLoop sa ea (r :: rs) = filterLoop sa ea rs := by
                  conv_lhs => rw [filterLoop]
                  simp only [hp]
                  rw [if_neg hin]
                rw [hl, ih2]
                simp [List.filter_cons, hk.trans hinf]

/-- C5 (amended): when the start/end bounds resolve (with the
whole-day extension of a midnight end bound) and every record's
`saved_at` is absent, falsy, or parseable, the filtered view keeps a
record iff its `saved_at` parses to an instant within the inclusive
bounds; records with missing `saved_at` are excluded.  The concrete
conjunct shows the date-only end bound `2025-01-01` including
`2025-01-01T23:59:00Z` and excluding `2025-01-02T00:00:01Z` (the
missing-`saved_at` record excluded as well).  The frozen claim's last
part fails — an unparseable `saved_at` raises out of the loop and fails
the whole filtering operation (there is no try/except at
server.py 291-304): see `C5_counterexample`. -/
theorem C5_date_filtering (records : List PyObj) (startStr endStr : Option String)
    (sa ea : Option Int)
    (hb : resolveBounds startStr endStr = Except.ok (sa, ea))
    (hok : ∀ r ∈ records, savedAtOk r = true) :
    filter_records_by_date records startStr endStr
        = Except.ok (records.filter (keepRecord sa ea))
      ∧ filter_records_by_date [c5recIn, c5recOut, c5recMissing] none (some "2025-01-01")
          = Except.ok [c5recIn] := by
  constructor
  · unfold filter_records_by_date
    rw [hb]
    exact filterLoop_eq_filter sa ea records hok
  · rfl

/-- Counterexample for C5's exclusion-not-failure part: one record whose
`saved_at` does not parse makes the whole filtering operation fail with
a `ValueError` instead of being excluded from the view. -/
theorem C5_counterexample :
    savedAtOk c5badRec = false
      ∧ filter_records_by_date [c5badRec, c5recIn] (some "2025-01-01") none
          = Except.error
              "Invalid date format. Use ISO format YYYY-MM-DD or YYYY-MM-DDTHH:MM:SSZ" :=
  ⟨rfl, rfl⟩

/-- Witness for C5 on two records (one datetime-stamped, one missing
`saved_at`) with no bounds. -/
theorem C5_witness :
    filter_records_by_date [c5recIn, c5recMissing] none none
        = Except.ok ([c5recIn, c5recMissing].filter (keepRecord none none))
      ∧ [c5recIn, c5recMissing].filter (keepRecord none none) = [c5recIn] :=
  ⟨(C5_date_filtering [c5recIn, c5recMissing] none none none none rfl (by decide)).1, rfl⟩

/-- A `Counter` increment raises the total by exactly one. -/
theorem sumCounts_counterAdd {α : Type} [DecidableEq α] (c : List (α × Nat)) (k : α) :
    sumCounts (counterAdd c k) = sumCounts c + 1 := by
  induction c with
  | nil => rfl
  | cons p rest ih =>
      obtain ⟨k', n⟩ := p
      by_cases h : k' = k
      · subst h
        simp only [counterAdd, if_pos rfl, sumCounts]
        omega
      · simp only [counterAdd, h, if_false, sumCounts, ih]
        omega

/-- The sentiment counter's total grows by one per record. -/
theorem buildSentCounter_sum (records : List PyObj) :
    ∀ (acc cnt : List (SKey × Nat)),
      buildSentCounter acc records = Except.ok cnt →
      sumCounts cnt = sumCounts acc + records.length := by
  induction records with
  | nil =>
      intro acc cnt h
      simp only [buildSentCounter, Except.ok.injEq] at h
      subst h
      simp
  | cons r rs ih =>
      intro acc cnt h
      unfold buildSentCounter at h
      cases hk : toSKey (sentimentLabel r) with
      | none =>
          rw [hk] at h
          exact absurd h (by simp)
      | some k =>
          rw [hk] at h
          have h2 := ih (counterAdd acc k) cnt h
          rw [h2, sumCounts_counterAdd]
          simp only [List.length_cons]
          omega

/-- C10: whenever `compute_analytics` succeeds on a non-empty record
list, each record contributed exactly one label to
`sentiment_breakdown` (its sentiment or `"Unknown"` when falsy), so the
breakdown counts sum to `total_conversations`, the number of records. -/
theorem C10_sentiment_breakdown_total (records : List PyObj)
    (hne : records.isEmpty = false)
    (hok : (compute_analytics records).isOk = true) :
    analyticsBreakdownSum (compute_analytics records) = some records.length
      ∧ analyticsTotal (compute_analytics records) = some records.length := by
  cases hs : getScores records with
  | error e =>
      simp [compute_analytics, hne, hs, Except.isOk, Except.toBool] at hok
  | ok numeric =>
      cases hb : buildSentCounter [] records with
      | error e =>
          simp [compute_analytics, hne, hs, hb, Except.isOk, Except.toBool] at hok
      | ok breakdown =>
          cases ht : getTurns records with
          | error e =>
              simp [compute_analytics, hne, hs, hb, ht, Except.isOk, Except.toBool] at hok
          | ok turnsL =>
              cases hf : buildFeedbackCounter [] records with
              | error e =>
                  simp [compute_analytics, hne, hs, hb, ht, hf, Except.isOk,
                    Except.toBool] at hok
              | ok fc =>
                  have hsum := buildSentCounter_sum records [] breakdown hb
                  constructor
                  · simp [analyticsBreakdownSum, compute_analytics, hne, hs, hb, ht, hf]
                    rw [hsum]
                    simp [sumCounts]
                  · simp [analyticsTotal, compute_analytics, hne, hs, hb, ht, hf]

/-- Witness for C10 on three records with sentiments Positive, Negative
and empty (counted as Unknown): the breakdown sums to 3, the number of
records. -/
theorem C10_witness :
    analyticsBreakdownSum (compute_analytics c10recs) = some 3
      ∧ analyticsTotal (compute_analytics c10recs) = some 3 :=
  C10_sentiment_breakdown_total c10recs rfl (by rfl)
